import Mathlib

/-!
Verification of the building-intelligence energy-management system.

Shallow embedding of the scheduling, validation, tariff, blackout-detection
and non-controllable-load computations of the repository, with theorems
settling the behavioural claims about them.

Conventions used throughout:
* pandas/numpy series are modelled pointwise as functions `Nat → ℚ` or as
  lists of samples;
* timestamps are rationals or integers (minutes or abstract instants);
* Python `None` is `Option.none`; Python exceptions are `Except.error`;
* machine floats of the source carry exact decimal values in the scenarios
  considered, so they are modelled as `ℚ`.
-/

namespace HistoricQueries

/-- `core_api/database/historic_queries.py`, `_compute_non_controllable_consumption`:
after the per-device-type reads, the aggregated series (`total_consumption`,
`tot_thermostats`, `tot_battery`, `tot_ev`, `tot_water_heater`, each the
row-sum of its dataframe, or the constant 0 when no device of that type is
installed) are combined as
`neg_consumption = (total_consumption * -1) + tot_thermostats + tot_battery + tot_water_heater + (tot_ev * -1)`.
Series are modelled pointwise on a common sample index. -/
def computeNonControllableConsumption
    (total thermostats battery ev waterHeater : Nat → ℚ) : Nat → ℚ :=
  fun i => (total i * (-1)) + thermostats i + battery i + waterHeater i + (ev i * (-1))

/-- `data_engine/forecaster/forecast_retriever.py`, `_compute_non_controllable_historic`:
identical reads, but the combination line omits the battery term:
`neg_consumption = (total_consumption * -1) + tot_thermostats + tot_water_heater + (tot_ev * -1)`
(the battery variant is commented out in the source, with a TODO note). -/
def computeNonControllableHistoric
    (total thermostats ev waterHeater : Nat → ℚ) : Nat → ℚ :=
  fun i => (total i * (-1)) + thermostats i + waterHeater i + (ev i * (-1))

/-- C1: for every fixed set of input series, the historic-query path computes
the non-controllable load as `-total + thermostats + battery + water_heater - ev`,
the forecaster's historic computation for the same inputs computes
`-total + thermostats + water_heater - ev` with the battery term omitted,
and the two results differ exactly by the battery consumption term. -/
theorem nonControllable_differs_exactly_by_battery
    (total thermostats battery ev waterHeater : Nat → ℚ) (i : Nat) :
    computeNonControllableConsumption total thermostats battery ev waterHeater i
        = -(total i) + thermostats i + battery i + waterHeater i - ev i
    ∧ computeNonControllableHistoric total thermostats ev waterHeater i
        = -(total i) + thermostats i + waterHeater i - ev i
    ∧ computeNonControllableConsumption total thermostats battery ev waterHeater i
        - computeNonControllableHistoric total thermostats ev waterHeater i
        = battery i := by
  refine ⟨?_, ?_, ?_⟩ <;>
    simp only [computeNonControllableConsumption, computeNonControllableHistoric] <;>
    ring

end HistoricQueries

namespace Tariffs

/-- `grid_services_api/api/tariffs.py`: `HORIZON = 144`. -/
def HORIZON : Nat := 144

/-- `grid_services_api/api/tariffs.py`, `_convert_datetime_to_int`:
`dac_timestemp = 10`; `steps_per_hour = floor(hour * 60 / 10)`;
`steps_per_minute = floor(minute / 10)`; result `int(steps_per_hour + steps_per_minute)`.
Hours and minutes are non-negative, so `np.floor` of the quotients is `Nat` division. -/
def convertDatetimeToInt (hour minute : Nat) : Nat :=
  hour * 60 / 10 + minute / 10

/-- `send_tou_tariff`: `tou_tariff = np.ones(HORIZON) * off_peak_value` then
`tou_tariff[start_int:stop_int] = on_peak_value`.  Slice assignment with
non-negative bounds sets exactly the indices `start_int ≤ i < stop_int`. -/
def touTariffPrices (startInt stopInt : Nat) (offPeakValue onPeakValue : ℚ) : List ℚ :=
  (List.range HORIZON).map (fun i => if startInt ≤ i ∧ i < stopInt then onPeakValue else offPeakValue)

/-- C10: for every datetime input, `_convert_datetime_to_int` returns an integer
slot index equal to `floor(hour*60/10) + floor(minute/10)`, lying between 0 and
143 inclusive, so every sub-range `[start_slot, stop_slot)` written by the
tariff endpoints falls within the fixed 144-slot price array. -/
theorem convertDatetimeToInt_formula_and_bounds
    (hour minute : Nat) (hh : hour < 24) (hm : minute < 60) :
    convertDatetimeToInt hour minute = hour * 60 / 10 + minute / 10
    ∧ convertDatetimeToInt hour minute ≤ 143
    ∧ (∀ h2 m2 : Nat, h2 < 24 → m2 < 60 →
        ∀ i : Nat, convertDatetimeToInt hour minute ≤ i →
          i < convertDatetimeToInt h2 m2 → i < HORIZON)
    ∧ (∀ s : Nat, ∀ offPeak onPeak : ℚ,
        (touTariffPrices (convertDatetimeToInt hour minute) s offPeak onPeak).length = HORIZON) := by
  refine ⟨rfl, ?_, ?_, ?_⟩
  · simp only [convertDatetimeToInt]
    omega
  · intro h2 m2 hh2 hm2 i _hi1 hi2
    simp only [convertDatetimeToInt, HORIZON] at *
    omega
  · intro s offPeak onPeak
    simp [touTariffPrices]

/-- Witness for C10 at the spec's own example 16:05: the slot index is
`96 = 16×6 + 0` and all the bounds hold there. -/
theorem convertDatetimeToInt_witness :
    convertDatetimeToInt 16 5 = 96
    ∧ (convertDatetimeToInt 16 5 = 16 * 60 / 10 + 5 / 10
      ∧ convertDatetimeToInt 16 5 ≤ 143
      ∧ (∀ h2 m2 : Nat, h2 < 24 → m2 < 60 →
          ∀ i : Nat, convertDatetimeToInt 16 5 ≤ i →
            i < convertDatetimeToInt h2 m2 → i < HORIZON)
      ∧ (∀ s : Nat, ∀ offPeak onPeak : ℚ,
          (touTariffPrices (convertDatetimeToInt 16 5) s offPeak onPeak).length = HORIZON)) :=
  ⟨by decide, convertDatetimeToInt_formula_and_bounds 16 5 (by decide) (by decide)⟩

end Tariffs

namespace DeviceSchedule

/-- One InfluxDB point produced by `DeviceScheduler.save_schedule`: a record
tagged `_type="control"` whose field name ends with the device's entity id,
carrying a stringified integer `priority` tag, a timestamp, a value and a
`from_direct_control` tag.  Only the components examined by the query are kept. -/
structure ControlRecord where
  time : Int
  priority : Int
  value : Int
  fromDirectControl : Bool
deriving DecidableEq, Repr

/-- Lexicographic comparison on `(priority_int, _time)` used by the Flux
`top(n: 1, columns: ["priority_int", "_time"])` call: sort descending by
priority first, timestamp second, keep the first row. -/
def recordLt (a b : ControlRecord) : Bool :=
  a.priority < b.priority || (a.priority == b.priority && a.time < b.time)

/-- The maximum of a list of control records under `(priority, time)`
lexicographic order; `none` on the empty list.  This is the single row kept by
`top(n: 1, columns: ["priority_int", "_time"])`. -/
def topRecord : List ControlRecord → Option ControlRecord
  | [] => none
  | r :: rs => some (rs.foldl (fun best c => if recordLt best c then c else best) r)

/-- `core_api/schedule/device_scheduler.py`, `_query_event_data`: the Flux query
ranges over `[timeLimit - 300s, timeTarget + 1µs]`, filters `_type == "control"`
records of the device, then narrows with
`filter(fn: (r) => r._time >= timeLimit and r._time <= timeTarget)` and applies
`top(n: 1, columns: ["priority_int", "_time"])`; the Python code returns the
first record of the first table (one table per field; a single field is
modelled).  `time_limit = time_target - time_step_duration_in_seconds`. -/
def queryEventData (records : List ControlRecord) (timeLimit timeTarget : Int) :
    Option ControlRecord :=
  topRecord (records.filter (fun r => timeLimit ≤ r.time && r.time ≤ timeTarget))

/-- `(priority, time)` lexicographic order, propositionally. -/
def RecordLe (a b : ControlRecord) : Prop :=
  a.priority < b.priority ∨ (a.priority = b.priority ∧ a.time ≤ b.time)

theorem recordLe_refl (a : ControlRecord) : RecordLe a a := Or.inr ⟨rfl, le_refl _⟩

theorem recordLe_trans {a b c : ControlRecord} (h1 : RecordLe a b) (h2 : RecordLe b c) :
    RecordLe a c := by
  rcases h1 with h1 | ⟨h1p, h1t⟩ <;> rcases h2 with h2 | ⟨h2p, h2t⟩
  · exact Or.inl (lt_trans h1 h2)
  · exact Or.inl (h2p ▸ h1)
  · exact Or.inl (h1p ▸ h2)
  · exact Or.inr ⟨h1p.trans h2p, h1t.trans h2t⟩

theorem recordLe_of_step (best c : ControlRecord) :
    RecordLe best (if recordLt best c then c else best)
    ∧ RecordLe c (if recordLt best c then c else best) := by
  by_cases h : recordLt best c = true
  · rw [if_pos h]
    constructor
    · simp only [recordLt, Bool.or_eq_true, Bool.and_eq_true, decide_eq_true_eq,
        beq_iff_eq] at h
      rcases h with h | ⟨hp, ht⟩
      · exact Or.inl h
      · exact Or.inr ⟨hp, le_of_lt ht⟩
    · exact recordLe_refl c
  · rw [if_neg h]
    refine ⟨recordLe_refl best, ?_⟩
    simp only [recordLt, Bool.or_eq_true, Bool.and_eq_true, decide_eq_true_eq,
      beq_iff_eq, not_or, not_and, not_lt] at h
    obtain ⟨hp, hq⟩ := h
    rcases lt_or_eq_of_le hp with hlt | heq
    · exact Or.inl hlt
    · exact Or.inr ⟨heq, hq heq.symm⟩

theorem foldl_top_mem (l : List ControlRecord) (a : ControlRecord) :
    l.foldl (fun best c => if recordLt best c then c else best) a = a
    ∨ l.foldl (fun best c => if recordLt best c then c else best) a ∈ l := by
  induction l generalizing a with
  | nil => exact Or.inl rfl
  | cons x xs ih =>
    rw [List.foldl_cons]
    by_cases hx : recordLt a x = true
    · rw [if_pos hx]
      rcases ih x with h | h
      · exact Or.inr (by rw [h]; exact List.mem_cons_self x xs)
      · exact Or.inr (List.mem_cons_of_mem x h)
    · rw [if_neg hx]
      rcases ih a with h | h
      · exact Or.inl h
      · exact Or.inr (List.mem_cons_of_mem x h)

theorem foldl_top_ge (l : List ControlRecord) (a : ControlRecord) :
    RecordLe a (l.foldl (fun best c => if recordLt best c then c else best) a)
    ∧ ∀ s ∈ l, RecordLe s (l.foldl (fun best c => if recordLt best c then c else best) a) := by
  induction l generalizing a with
  | nil => exact ⟨recordLe_refl a, by simp⟩
  | cons x xs ih =>
    rw [List.foldl_cons]
    obtain ⟨hstep1, hstep2⟩ := recordLe_of_step a x
    obtain ⟨ih1, ih2⟩ := ih (if recordLt a x then x else a)
    refine ⟨recordLe_trans hstep1 ih1, ?_⟩
    intro s hs
    rcases List.mem_cons.mp hs with rfl | hs
    · exact recordLe_trans hstep2 ih1
    · exact ih2 s hs

theorem topRecord_spec (l : List ControlRecord) (r : ControlRecord)
    (h : topRecord l = some r) : r ∈ l ∧ ∀ s ∈ l, RecordLe s r := by
  cases l with
  | nil => simp [topRecord] at h
  | cons x xs =>
    simp only [topRecord, Option.some.injEq] at h
    subst h
    constructor
    · rcases foldl_top_mem xs x with hc | hc
      · rw [hc]; exact List.mem_cons_self x xs
      · exact List.mem_cons_of_mem x hc
    · intro s hs
      obtain ⟨hge1, hge2⟩ := foldl_top_ge xs x
      rcases List.mem_cons.mp hs with rfl | hs
      · exact hge1
      · exact hge2 s hs

/-- C2: for every device and query time, the record selected by
`_query_event_data` among control records whose timestamps fall in
`[time_limit, time_target]` (with `time_limit = time_target - schedule_interval`)
is one of those records, and it dominates every record of the window in the
`(priority, time)` lexicographic order: highest integer priority first,
tie-broken by most recent timestamp.  In particular a priority-80 record written
earlier in the window resolves over a priority-50 record written later. -/
theorem queryEventData_selects_highest_priority_then_latest
    (records : List ControlRecord) (timeLimit timeTarget : Int) (r : ControlRecord)
    (h : queryEventData records timeLimit timeTarget = some r) :
    (r ∈ records ∧ timeLimit ≤ r.time ∧ r.time ≤ timeTarget)
    ∧ ∀ s ∈ records, timeLimit ≤ s.time → s.time ≤ timeTarget →
        s.priority < r.priority ∨ (s.priority = r.priority ∧ s.time ≤ r.time) := by
  obtain ⟨hmem, hdom⟩ := topRecord_spec _ r h
  have hr := List.mem_filter.mp hmem
  simp only [Bool.and_eq_true, decide_eq_true_eq] at hr
  refine ⟨⟨hr.1, hr.2.1, hr.2.2⟩, ?_⟩
  intro s hs hs1 hs2
  exact hdom s (List.mem_filter.mpr ⟨hs, by simp [hs1, hs2]⟩)

/-- Witness for C2: the window `[0, 60]` holds a priority-80 record written at
time 10 and a priority-50 record written later at time 50; the query resolves to
the priority-80 record and the theorem's conclusions hold there. -/
theorem queryEventData_priority_beats_recency_witness :
    queryEventData
        [⟨10, 80, 21, false⟩, ⟨50, 50, 17, false⟩] 0 60 = some ⟨10, 80, 21, false⟩
    ∧ ((⟨10, 80, 21, false⟩ ∈ ([⟨10, 80, 21, false⟩, ⟨50, 50, 17, false⟩] : List ControlRecord)
          ∧ (0 : Int) ≤ 10 ∧ (10 : Int) ≤ 60)
      ∧ ∀ s ∈ ([⟨10, 80, 21, false⟩, ⟨50, 50, 17, false⟩] : List ControlRecord),
          (0 : Int) ≤ s.time → s.time ≤ 60 →
            s.priority < 80 ∨ (s.priority = 80 ∧ s.time ≤ 10)) :=
  ⟨by decide,
    queryEventData_selects_highest_priority_then_latest
      [⟨10, 80, 21, false⟩, ⟨50, 50, 17, false⟩] 0 60 ⟨10, 80, 21, false⟩ (by decide)⟩

end DeviceSchedule

namespace Monitor

/-- Python truthiness of a cached event value read back from Redis:
`None` (missing/expired key) and the number `0` are falsy, everything else
is truthy.  Event values are the numeric setpoint payloads. -/
def pyTruthy (v : Option Int) : Bool :=
  match v with
  | none => false
  | some n => n != 0

/-- Result of one `get_device_event_data_with_changed_flag` call: the value
returned to the caller, the changed flag, and the unconditional Redis rewrite
(`save_in_redis_with_expiration(key, current_event_data, time_step * 2)`). -/
structure ChangedFlagResult where
  current : Option (Int × Bool)
  changed : Bool
  cacheWriteValue : Option Int
  cacheWriteTtl : Nat
deriving DecidableEq, Repr

/-- `core_api/schedule/monitor.py`, `get_device_event_data_with_changed_flag`.
Inputs: `cache` is what `safe_read_from_redis` returns for the per-(type,
device) key (`none` on miss), `prevStep` is the `.data` of
`get_device_event_data` at `timestamp - time_step` (the recompute path), and
`current` is the `.data`/`.from_direct_control` pair of `get_device_event_data`
at `timestamp`.  The source keeps the cached value only when
`if previous_event_data:` — Python truthiness — holds; otherwise it recomputes.
`changed_flag = (previous_event_data != current_event_data) and current_from_direct_control is False`,
and the cache entry is always rewritten with TTL `time_step * 2`. -/
def getDeviceEventDataWithChangedFlag (cache prevStep : Option Int)
    (current : Option (Int × Bool)) (timeStep : Nat) : ChangedFlagResult :=
  let previousEventData := if pyTruthy cache then cache else prevStep
  let currentEventData := current.map Prod.fst
  let currentFromDirectControl := (current.map Prod.snd).getD false
  let changedFlag := (previousEventData != currentEventData) && !currentFromDirectControl
  ⟨current, changedFlag, currentEventData, timeStep * 2⟩

/-- The claim's reading of the previous value: the previously cached value, or,
only on a cache miss, the recomputed previous-step value. -/
def claimPreviousValue (cache prevStep : Option Int) : Option Int :=
  match cache with
  | some v => some v
  | none => prevStep

/-- The claim's changed determination: previous differs from current and the
current value is not flagged `from_direct_control`. -/
def claimChangedFlag (cache prevStep : Option Int) (current : Option (Int × Bool)) : Bool :=
  (claimPreviousValue cache prevStep != current.map Prod.fst)
    && !((current.map Prod.snd).getD false)

/-- C3 counterexample: with the value `0` sitting in the cache (present, not a
miss), a recomputed previous-step value of `1` and a current resolved value of
`0` not from direct control, the code reports `changed = true` (the falsy cached
`0` is discarded and the recomputed `1` is compared), while the claim's
cached-or-recomputed-on-miss rule yields `changed = false`. -/
theorem changedFlag_cached_zero_counterexample :
    (getDeviceEventDataWithChangedFlag (some 0) (some 1) (some (0, false)) 60).changed = true
    ∧ claimChangedFlag (some 0) (some 1) (some (0, false)) = false := by
  decide

/-- C3 (amended): `changed = true` iff the previous value — the cached value
when the cache entry is truthy (present and non-zero), otherwise the recomputed
previous-step value — differs from the currently resolved value and the current
value is not flagged `from_direct_control`; and the per-(type, device) cache
entry is always rewritten with the current value and TTL equal to twice the
schedule time step, whether or not a change was detected. -/
theorem changedFlag_truthy_cache_rule (cache prevStep : Option Int)
    (current : Option (Int × Bool)) (timeStep : Nat) :
    ((getDeviceEventDataWithChangedFlag cache prevStep current timeStep).changed = true
      ↔ ((if pyTruthy cache then cache else prevStep) ≠ current.map Prod.fst
          ∧ (current.map Prod.snd).getD false = false))
    ∧ (getDeviceEventDataWithChangedFlag cache prevStep current timeStep).cacheWriteTtl
        = 2 * timeStep
    ∧ (getDeviceEventDataWithChangedFlag cache prevStep current timeStep).cacheWriteValue
        = current.map Prod.fst
    ∧ (getDeviceEventDataWithChangedFlag cache prevStep current timeStep).current = current := by
  refine ⟨?_, ?_, rfl, rfl⟩
  · simp only [getDeviceEventDataWithChangedFlag, Bool.and_eq_true, bne_iff_ne,
      Bool.not_eq_true']
  · simp only [getDeviceEventDataWithChangedFlag]
    exact Nat.mul_comm timeStep 2

end Monitor

namespace WeeklyScheduler

/-- `core_api/schedule/models.py`, `Weekday`: the seven weekday enum values. -/
inductive Weekday
  | sunday
  | monday
  | tuesday
  | wednesday
  | thursday
  | friday
  | saturday
deriving DecidableEq, Repr

/-- `core_api/schedule/models.py`, `WeeklyScheduleEvent`: id, time of day
(`__post_init__` truncates to hour/minute, modelled as minutes since midnight),
generic data payload (`none` models a Python `None` payload) and day list. -/
structure WeeklyScheduleEvent where
  id : String
  time : Nat
  data : Option ℚ
  days : List Weekday
deriving DecidableEq, Repr

/-- `core_api/schedule/models.py`, `Schedule`: a named container of events. -/
structure Schedule where
  id : String
  name : String
  description : String
  events : List WeeklyScheduleEvent
deriving DecidableEq, Repr

/-- `core_api/schedule/models.py`, `ScheduleEventData`: the resolved value
returned by a scheduler (`from_direct_control` defaults to `False`). -/
structure ScheduleEventData where
  eventId : String
  data : ℚ
  fromDirectControl : Bool
deriving DecidableEq, Repr

/-- `WeeklyRecurringScheduler.get_events`: flatten the schedules' event lists
in registration order (`chain.from_iterable`). -/
def getEvents (schedules : List Schedule) : List WeeklyScheduleEvent :=
  (schedules.map Schedule.events).flatten

/-- Python's `max(valid_events, key=lambda x: x.time)`: scan left to right,
replace the running maximum only on a strictly larger key, so the first
occurrence of the maximal time is kept. -/
def maxByTime : List WeeklyScheduleEvent → Option WeeklyScheduleEvent
  | [] => none
  | e :: es => some (es.foldl (fun best c => if best.time < c.time then c else best) e)

/-- `WeeklyRecurringScheduler.get_event`: filter the events whose day set
contains the current weekday; if none, return `None`; otherwise scan
`reversed(valid_events)` — reverse registration order — for the first event
with `event.time <= current_time`; if none fired, fall back to
`max(valid_events, key=time)`. -/
def getEvent (events : List WeeklyScheduleEvent) (currentDay : Weekday)
    (currentTime : Nat) : Option WeeklyScheduleEvent :=
  let validEvents := events.filter (fun e => decide (currentDay ∈ e.days))
  if validEvents.isEmpty then none
  else
    match validEvents.reverse.find? (fun e => decide (e.time ≤ currentTime)) with
    | some e => some e
    | none => maxByTime validEvents

/-- `WeeklyRecurringScheduler.get_event_data`: wrap the active event into
`ScheduleEventData` only when there is one and its `data` payload is not
`None`; otherwise return `None`. -/
def getEventData (events : List WeeklyScheduleEvent) (currentDay : Weekday)
    (currentTime : Nat) : Option ScheduleEventData :=
  match getEvent events currentDay currentTime with
  | some e =>
      match e.data with
      | some d => some ⟨e.id, d, false⟩
      | none => none
  | none => none

/-- `core_api/schedule/monitor.py`, `get_device_event_data`: return the
scheduler's result; when it is `None` and the queried control type has a
configured preference-type fallback, recurse into the preference-type
scheduler's result instead. -/
def getDeviceEventData (schedulerResult fallbackResult : Option ScheduleEventData)
    (hasPreferenceFallback : Bool) : Option ScheduleEventData :=
  match schedulerResult with
  | some d => some d
  | none => if hasPreferenceFallback then fallbackResult else none

/-- C4 counterexample: with the Monday events registered in the order
17:30 (payload 18) then 07:00 (payload 19.5), a Monday 18:00 query returns the
07:00 event even though the 17:30 event has already fired and is strictly more
recent — `get_event` returns the last *registered* qualifying event, not the
most recent one, so the claim's universal "most recent" rule fails. -/
theorem getEvent_not_most_recent_counterexample :
    getEvent
        [⟨"b_17:30", 1050, some 18, [Weekday.monday]⟩,
         ⟨"a_07:00", 420, some (mkRat 39 2), [Weekday.monday]⟩]
        Weekday.monday 1080
      = some ⟨"a_07:00", 420, some (mkRat 39 2), [Weekday.monday]⟩
    ∧ (1050 : Nat) ≤ 1080 ∧ (420 : Nat) < 1050 := by
  decide

end WeeklyScheduler

namespace WeeklyScheduler

theorem foldl_maxTime_mem (l : List WeeklyScheduleEvent) (a : WeeklyScheduleEvent) :
    l.foldl (fun best c => if best.time < c.time then c else best) a = a
    ∨ l.foldl (fun best c => if best.time < c.time then c else best) a ∈ l := by
  induction l generalizing a with
  | nil => exact Or.inl rfl
  | cons x xs ih =>
    rw [List.foldl_cons]
    by_cases hx : a.time < x.time
    · rw [if_pos hx]
      rcases ih x with h | h
      · exact Or.inr (by rw [h]; exact List.mem_cons_self x xs)
      · exact Or.inr (List.mem_cons_of_mem x h)
    · rw [if_neg hx]
      rcases ih a with h | h
      · exact Or.inl h
      · exact Or.inr (List.mem_cons_of_mem x h)

theorem foldl_maxTime_ge (l : List WeeklyScheduleEvent) (a : WeeklyScheduleEvent) :
    a.time ≤ (l.foldl (fun best c => if best.time < c.time then c else best) a).time
    ∧ ∀ s ∈ l, s.time ≤ (l.foldl (fun best c => if best.time < c.time then c else best) a).time := by
  induction l generalizing a with
  | nil => exact ⟨le_refl _, by simp⟩
  | cons x xs ih =>
    rw [List.foldl_cons]
    obtain ⟨ih1, ih2⟩ := ih (if a.time < x.time then x else a)
    have hstep1 : a.time ≤ (if a.time < x.time then x else a).time := by
      by_cases hx : a.time < x.time
      · rw [if_pos hx]; exact le_of_lt hx
      · rw [if_neg hx]
    have hstep2 : x.time ≤ (if a.time < x.time then x else a).time := by
      by_cases hx : a.time < x.time
      · rw [if_pos hx]
      · rw [if_neg hx]; exact le_of_not_lt hx
    refine ⟨le_trans hstep1 ih1, ?_⟩
    intro s hs
    rcases List.mem_cons.mp hs with rfl | hs
    · exact le_trans hstep2 ih1
    · exact ih2 s hs

theorem maxByTime_spec (l : List WeeklyScheduleEvent) (m : WeeklyScheduleEvent)
    (h : maxByTime l = some m) : m ∈ l ∧ ∀ q ∈ l, q.time ≤ m.time := by
  cases l with
  | nil => simp [maxByTime] at h
  | cons x xs =>
    simp only [maxByTime, Option.some.injEq] at h
    subst h
    constructor
    · rcases foldl_maxTime_mem xs x with hc | hc
      · rw [hc]; exact List.mem_cons_self x xs
      · exact List.mem_cons_of_mem x hc
    · intro q hq
      obtain ⟨h1, h2⟩ := foldl_maxTime_ge xs x
      rcases List.mem_cons.mp hq with rfl | hq
      · exact h1
      · exact h2 q hq

theorem findRev_sorted_spec (l : List WeeklyScheduleEvent) (now : Nat)
    (hsort : l.Pairwise (fun a b => a.time ≤ b.time)) (e : WeeklyScheduleEvent)
    (h : l.reverse.find? (fun e => decide (e.time ≤ now)) = some e) :
    e ∈ l ∧ e.time ≤ now ∧ ∀ q ∈ l, q.time ≤ now → q.time ≤ e.time := by
  induction l with
  | nil => simp at h
  | cons x xs ih =>
    rw [List.reverse_cons x xs, List.find?_append] at h
    obtain ⟨hx, hxs⟩ := List.pairwise_cons.mp hsort
    cases hfind : xs.reverse.find? (fun e => decide (e.time ≤ now)) with
    | some e2 =>
      rw [hfind] at h
      simp only [Option.or_some, Option.some.injEq] at h
      subst h
      obtain ⟨hmem, hle, hmax⟩ := ih hxs hfind
      refine ⟨List.mem_cons_of_mem x hmem, hle, ?_⟩
      intro q hq hqnow
      rcases List.mem_cons.mp hq with rfl | hq
      · exact hx e2 hmem
      · exact hmax q hq hqnow
    | none =>
      rw [hfind] at h
      simp only [Option.none_or] at h
      have hnone : ∀ q ∈ xs, ¬ q.time ≤ now := by
        intro q hq
        have := List.find?_eq_none.mp hfind q (List.mem_reverse.mpr hq)
        simpa using this
      by_cases hxnow : x.time ≤ now
      · have : ([x].find? (fun e => decide (e.time ≤ now))) = some x := by
          simp [List.find?, hxnow]
        rw [this, Option.some.injEq] at h
        subst h
        refine ⟨List.mem_cons_self x xs, hxnow, ?_⟩
        intro q hq hqnow
        rcases List.mem_cons.mp hq with rfl | hq
        · exact le_refl _
        · exact absurd hqnow (hnone q hq)
      · have : ([x].find? (fun e => decide (e.time ≤ now))) = none := by
          simp [List.find?, hxnow]
        rw [this] at h
        exact absurd h (by simp)

/-- The weekday schedule of the claim's example, in registration (= ascending
time) order: 07:00 → 19.5, 08:30 → 21.0, 17:30 → 18.0 on Monday–Friday. -/
def weekdayExampleEvents : List WeeklyScheduleEvent :=
  [⟨"weekday_07:00", 420, some (mkRat 39 2),
      [Weekday.monday, Weekday.tuesday, Weekday.wednesday, Weekday.thursday, Weekday.friday]⟩,
   ⟨"weekday_08:30", 510, some 21,
      [Weekday.monday, Weekday.tuesday, Weekday.wednesday, Weekday.thursday, Weekday.friday]⟩,
   ⟨"weekday_17:30", 1050, some 18,
      [Weekday.monday, Weekday.tuesday, Weekday.wednesday, Weekday.thursday, Weekday.friday]⟩]

/-- C4 (amended): `get_event` filters the events whose day set contains the
timestamp's local weekday and returns the last *registered* such event whose
time-of-day is ≤ the local time; whenever the day's registered events are in
ascending time-of-day order — as in every example configuration — this is the
most recent fired event; if no event of that day has fired yet it returns the
latest event of the day (carried over from the prior day's last activation).
For events 07:00→19.5, 08:30→21.0, 17:30→18.0 on Monday–Friday registered in
that order: Monday 10:00 yields 21.0, Monday 23:00 yields 18.0 and
Tuesday 02:00 yields 18.0. -/
theorem getEvent_sorted_resolution (events : List WeeklyScheduleEvent)
    (day : Weekday) (now : Nat)
    (hsort : (events.filter (fun e => decide (day ∈ e.days))).Pairwise
        (fun a b => a.time ≤ b.time)) :
    ((events.filter (fun e => decide (day ∈ e.days))) = [] →
        getEvent events day now = none)
    ∧ ((events.filter (fun e => decide (day ∈ e.days))) ≠ [] →
        ∃ e, getEvent events day now = some e
          ∧ e ∈ events.filter (fun e => decide (day ∈ e.days))
          ∧ ((∃ q ∈ events.filter (fun e => decide (day ∈ e.days)), q.time ≤ now) →
                e.time ≤ now
                ∧ ∀ q ∈ events.filter (fun e => decide (day ∈ e.days)),
                    q.time ≤ now → q.time ≤ e.time)
          ∧ ((∀ q ∈ events.filter (fun e => decide (day ∈ e.days)), ¬ q.time ≤ now) →
                ∀ q ∈ events.filter (fun e => decide (day ∈ e.days)), q.time ≤ e.time))
    ∧ getEventData weekdayExampleEvents Weekday.monday 600
        = some ⟨"weekday_08:30", 21, false⟩
    ∧ getEventData weekdayExampleEvents Weekday.monday 1380
        = some ⟨"weekday_17:30", 18, false⟩
    ∧ getEventData weekdayExampleEvents Weekday.tuesday 120
        = some ⟨"weekday_17:30", 18, false⟩ := by
  refine ⟨?_, ?_, by decide, by decide, by decide⟩
  · intro hempty
    simp only [getEvent, hempty]
    simp
  · intro hne
    simp only [getEvent]
    set valid := events.filter (fun e => decide (day ∈ e.days)) with hv
    have hvne : valid.isEmpty = false := by
      cases hval : valid with
      | nil => exact absurd hval hne
      | cons a as => simp [hval]
    rw [if_neg (by simp [hvne])]
    cases hfind : valid.reverse.find? (fun e => decide (e.time ≤ now)) with
    | some e =>
      obtain ⟨hmem, hle, hmax⟩ := findRev_sorted_spec valid now hsort e hfind
      refine ⟨e, rfl, hmem, fun _ => ⟨hle, hmax⟩, ?_⟩
      intro hnofire
      exact absurd hle (hnofire e hmem)
    | none =>
      have hnofire : ∀ q ∈ valid, ¬ q.time ≤ now := by
        intro q hq
        have := List.find?_eq_none.mp hfind q (List.mem_reverse.mpr hq)
        simpa using this
      cases hmax : maxByTime valid with
      | none =>
        cases hval : valid with
        | nil => exact absurd hval hne
        | cons a as => rw [hval] at hmax; simp [maxByTime] at hmax
      | some m =>
        obtain ⟨hmem, hdom⟩ := maxByTime_spec valid m hmax
        refine ⟨m, rfl, hmem, ?_, fun _ => hdom⟩
        intro hfire
        obtain ⟨q, hq, hqnow⟩ := hfire
        exact absurd hqnow (hnofire q hq)

/-- Witness for C4 at the example weekday configuration (sorted registration
order), Monday 10:00: the filtered Monday list is nonempty, so `get_event`
returns a fired, time-maximal event, and the three example queries resolve to
21.0, 18.0 and 18.0. -/
theorem getEvent_sorted_resolution_witness :
    ((weekdayExampleEvents.filter
          (fun e => decide (Weekday.monday ∈ e.days))) = [] →
        getEvent weekdayExampleEvents Weekday.monday 600 = none)
    ∧ ((weekdayExampleEvents.filter (fun e => decide (Weekday.monday ∈ e.days))) ≠ [] →
        ∃ e, getEvent weekdayExampleEvents Weekday.monday 600 = some e
          ∧ e ∈ weekdayExampleEvents.filter (fun e => decide (Weekday.monday ∈ e.days))
          ∧ ((∃ q ∈ weekdayExampleEvents.filter (fun e => decide (Weekday.monday ∈ e.days)),
                q.time ≤ 600) →
                e.time ≤ 600
                ∧ ∀ q ∈ weekdayExampleEvents.filter (fun e => decide (Weekday.monday ∈ e.days)),
                    q.time ≤ 600 → q.time ≤ e.time)
          ∧ ((∀ q ∈ weekdayExampleEvents.filter (fun e => decide (Weekday.monday ∈ e.days)),
                ¬ q.time ≤ 600) →
                ∀ q ∈ weekdayExampleEvents.filter (fun e => decide (Weekday.monday ∈ e.days)),
                  q.time ≤ e.time))
    ∧ getEventData weekdayExampleEvents Weekday.monday 600
        = some ⟨"weekday_08:30", 21, false⟩
    ∧ getEventData weekdayExampleEvents Weekday.monday 1380
        = some ⟨"weekday_17:30", 18, false⟩
    ∧ getEventData weekdayExampleEvents Weekday.tuesday 120
        = some ⟨"weekday_17:30", 18, false⟩ :=
  getEvent_sorted_resolution weekdayExampleEvents Weekday.monday 600 (by decide)

end WeeklyScheduler

namespace WeeklyScheduler

/-- C9: for every scheduler state and timestamp at which `get_event` finds an
active event whose `data` payload is `None`, `get_event_data` returns `None` —
exactly what it returns when no schedule exists at all — so at the monitor's
`get_device_event_data` interface the query resolves identically to a device
with no weekly schedule, falling through to the control-to-preference fallback
instead of reporting the event. -/
theorem getEventData_none_payload (events : List WeeklyScheduleEvent)
    (day : Weekday) (now : Nat) (e : WeeklyScheduleEvent)
    (h1 : getEvent events day now = some e) (h2 : e.data = none) :
    getEventData events day now = none
    ∧ getEventData events day now = getEventData [] day now
    ∧ ∀ (fallbackResult : Option ScheduleEventData) (hasPreferenceFallback : Bool),
        getDeviceEventData (getEventData events day now) fallbackResult hasPreferenceFallback
          = getDeviceEventData (getEventData [] day now) fallbackResult hasPreferenceFallback := by
  have hmain : getEventData events day now = none := by
    simp only [getEventData, h1, h2]
  have hempty : getEventData ([] : List WeeklyScheduleEvent) day now = none := rfl
  exact ⟨hmain, by rw [hmain, hempty], fun f b => by rw [hmain, hempty]⟩

/-- Witness for C9: a single Monday 09:00 event carrying a `None` payload is
active at Monday 10:00, and `get_event_data` reports `None` for it. -/
theorem getEventData_none_payload_witness :
    getEventData [⟨"wh_09:00", 540, none, [Weekday.monday]⟩] Weekday.monday 600 = none
    ∧ getEventData [⟨"wh_09:00", 540, none, [Weekday.monday]⟩] Weekday.monday 600
        = getEventData [] Weekday.monday 600
    ∧ ∀ (fallbackResult : Option ScheduleEventData) (hasPreferenceFallback : Bool),
        getDeviceEventData
            (getEventData [⟨"wh_09:00", 540, none, [Weekday.monday]⟩] Weekday.monday 600)
            fallbackResult hasPreferenceFallback
          = getDeviceEventData (getEventData [] Weekday.monday 600)
            fallbackResult hasPreferenceFallback :=
  getEventData_none_payload [⟨"wh_09:00", 540, none, [Weekday.monday]⟩]
    Weekday.monday 600 ⟨"wh_09:00", 540, none, [Weekday.monday]⟩ (by decide) rfl

/-- A raw event of the configuration dictionary handed to `_add_schedules`:
`{"time": "HH:MM", "data": value}`.  `strptime` parsing of the `"HH:MM"` text is
modelled by carrying the parsed minutes-since-midnight alongside the raw text
(the text is still needed because the event id is `f"{schedule_name}_{time_text}"`). -/
structure RawEvent where
  timeText : String
  time : Nat
  data : Option ℚ
deriving DecidableEq, Repr

/-- A raw schedule block of the configuration dictionary: `days` and `events`
lists (the structural checks of `_validate_schedule` hold by construction in
this typed model). -/
structure RawSchedule where
  days : List Weekday
  events : List RawEvent
deriving DecidableEq, Repr

/-- `_validate_event`'s conflict test against one existing event:
`set(existing.days) & set(event.days)` non-empty and `existing.time == event.time`. -/
def conflictsWith (existing event : WeeklyScheduleEvent) : Bool :=
  existing.days.any (fun d => decide (d ∈ event.days)) && existing.time == event.time

/-- The per-schedule event loop of `_add_schedules`: build each event, validate
it with `_validate_event` against `self.get_events()` — the events of the
schedules already appended to `self._schedules`, which does not change while
one schedule's events are processed — and collect it.  Raises
`WeeklyRecurringSchedulerError` at the first conflicting event. -/
def buildEvents (registered : List WeeklyScheduleEvent) (name : String)
    (days : List Weekday) : List RawEvent → Except String (List WeeklyScheduleEvent)
  | [] => Except.ok []
  | r :: rest =>
      let event : WeeklyScheduleEvent := ⟨name ++ "_" ++ r.timeText, r.time, r.data, days⟩
      if registered.any (fun existing => conflictsWith existing event) then
        Except.error "Schedule conflict: Entry already exists"
      else
        (buildEvents registered name days rest).map (fun events => event :: events)

/-- `_add_schedules`: process the configuration entries in order; for each,
build and validate its events, then append the completed `Schedule` to
`self._schedules`.  A raised conflict aborts the loop; the returned pair is the
state of `self._schedules` at that moment together with the error, so the
effect of the exception on the already-registered schedules is observable. -/
def addSchedules (schedules : List Schedule) :
    List (String × RawSchedule) → List Schedule × Option String
  | [] => (schedules, none)
  | (name, raw) :: rest =>
      match buildEvents (getEvents schedules) name raw.days raw.events with
      | Except.error msg => (schedules, some msg)
      | Except.ok events =>
          addSchedules (schedules ++ [⟨name, name, "Schedule for " ++ name, events⟩]) rest

/-- C5 counterexample: a single schedule block containing two events at the
same time 07:00 on the same day Monday is accepted without error — the two
events are only validated against previously completed schedules, never against
each other — so after construction two registered events share a weekday and a
time-of-day, violating the claimed invariant. -/
theorem addSchedules_same_schedule_duplicate_counterexample :
    addSchedules [] [("s", ⟨[Weekday.monday],
        [⟨"07:00", 420, some 19⟩, ⟨"07:00", 420, some 21⟩]⟩)]
      = ([⟨"s", "s", "Schedule for s",
            [⟨"s_07:00", 420, some 19, [Weekday.monday]⟩,
             ⟨"s_07:00", 420, some 21, [Weekday.monday]⟩]⟩], none)
    ∧ conflictsWith ⟨"s_07:00", 420, some 19, [Weekday.monday]⟩
        ⟨"s_07:00", 420, some 21, [Weekday.monday]⟩ = true
    ∧ (⟨"s_07:00", 420, some 19, [Weekday.monday]⟩ : WeeklyScheduleEvent)
        ≠ ⟨"s_07:00", 420, some 21, [Weekday.monday]⟩ := by
  decide

theorem buildEvents_error_iff (registered : List WeeklyScheduleEvent)
    (name : String) (days : List Weekday) (raws : List RawEvent) :
    (∃ msg, buildEvents registered name days raws = Except.error msg)
      ↔ ∃ r ∈ raws, ∃ old ∈ registered,
          conflictsWith old ⟨name ++ "_" ++ r.timeText, r.time, r.data, days⟩ = true := by
  induction raws with
  | nil => simp [buildEvents]
  | cons r rest ih =>
    simp only [buildEvents]
    by_cases hc : registered.any
        (fun existing =>
          conflictsWith existing ⟨name ++ "_" ++ r.timeText, r.time, r.data, days⟩) = true
    · rw [if_pos hc]
      simp only [List.any_eq_true] at hc
      obtain ⟨old, hold, hcf⟩ := hc
      constructor
      · intro _
        exact ⟨r, List.mem_cons_self r rest, old, hold, hcf⟩
      · intro _
        exact ⟨"Schedule conflict: Entry already exists", rfl⟩
    · rw [if_neg hc]
      simp only [List.any_eq_true, not_exists, not_and] at hc
      cases hb : buildEvents registered name days rest with
      | error msg =>
          constructor
          · intro _
            obtain ⟨r2, hr2, old, hold, hcf⟩ := ih.mp ⟨msg, hb⟩
            exact ⟨r2, List.mem_cons_of_mem r hr2, old, hold, hcf⟩
          · intro _
            exact ⟨msg, by simp [Except.map]⟩
      | ok events =>
          constructor
          · rintro ⟨msg, hmsg⟩
            simp [Except.map] at hmsg
          · rintro ⟨r2, hr2, old, hold, hcf⟩
            rcases List.mem_cons.mp hr2 with rfl | hr2
            · exact absurd hcf (by simpa using hc old hold)
            · obtain ⟨msg, hmsg⟩ := ih.mpr ⟨r2, hr2, old, hold, hcf⟩
              rw [hb] at hmsg
              exact absurd hmsg (by simp)

/-- C5 (amended): `_validate_event` checks a new event only against the events
of schedules whose registration has already completed — two events inside the
same schedule block are never checked against each other, so a single block may
register two events sharing a day and a time-of-day.  Registering a schedule
whose event collides (shared day, exact same time-of-day) with an
already-registered event raises `WeeklyRecurringSchedulerError` — and exactly
then — and the failed registration leaves the already-registered schedules and
their event lists unmodified. -/
theorem addSchedules_conflict_iff_cross_schedule (schedules : List Schedule)
    (name : String) (raw : RawSchedule) :
    ((addSchedules schedules [(name, raw)]).2.isSome = true
      ↔ ∃ r ∈ raw.events, ∃ old ∈ getEvents schedules,
          conflictsWith old ⟨name ++ "_" ++ r.timeText, r.time, r.data, raw.days⟩ = true)
    ∧ ((addSchedules schedules [(name, raw)]).2.isSome = true →
        (addSchedules schedules [(name, raw)]).1 = schedules) := by
  have hiff := buildEvents_error_iff (getEvents schedules) name raw.days raw.events
  simp only [addSchedules]
  cases hb : buildEvents (getEvents schedules) name raw.days raw.events with
  | error msg =>
    rw [hb] at hiff
    constructor
    · constructor
      · intro _
        exact hiff.mp ⟨msg, rfl⟩
      · intro _
        rfl
    · intro _
      rfl
  | ok events =>
    rw [hb] at hiff
    simp only [addSchedules]
    constructor
    · constructor
      · intro habs
        simp at habs
      · intro hex
        obtain ⟨msg, hmsg⟩ := hiff.mpr hex
        exact absurd hmsg (by simp)
    · intro habs
      simp at habs

/-- Witness for C5: registering a second schedule block whose Monday 07:00
event collides with the already-registered schedule's Monday 07:00 event
reports the conflict, and the already-registered schedule list is returned
unmodified. -/
theorem addSchedules_conflict_witness :
    ((addSchedules
          [⟨"s", "s", "Schedule for s", [⟨"s_07:00", 420, some 19, [Weekday.monday]⟩]⟩]
          [("t", ⟨[Weekday.monday, Weekday.friday], [⟨"07:00", 420, some 20⟩]⟩)]).2.isSome = true
      ↔ ∃ r ∈ [(⟨"07:00", 420, some 20⟩ : RawEvent)],
          ∃ old ∈ getEvents
              [⟨"s", "s", "Schedule for s", [⟨"s_07:00", 420, some 19, [Weekday.monday]⟩]⟩],
            conflictsWith old ⟨"t" ++ "_" ++ r.timeText, r.time, r.data,
                [Weekday.monday, Weekday.friday]⟩ = true)
    ∧ ((addSchedules
          [⟨"s", "s", "Schedule for s", [⟨"s_07:00", 420, some 19, [Weekday.monday]⟩]⟩]
          [("t", ⟨[Weekday.monday, Weekday.friday], [⟨"07:00", 420, some 20⟩]⟩)]).2.isSome = true →
        (addSchedules
          [⟨"s", "s", "Schedule for s", [⟨"s_07:00", 420, some 19, [Weekday.monday]⟩]⟩]
          [("t", ⟨[Weekday.monday, Weekday.friday], [⟨"07:00", 420, some 20⟩]⟩)]).1
          = [⟨"s", "s", "Schedule for s", [⟨"s_07:00", 420, some 19, [Weekday.monday]⟩]⟩]) :=
  addSchedules_conflict_iff_cross_schedule
    [⟨"s", "s", "Schedule for s", [⟨"s_07:00", 420, some 19, [Weekday.monday]⟩]⟩]
    "t" ⟨[Weekday.monday, Weekday.friday], [⟨"07:00", 420, some 20⟩]⟩

end WeeklyScheduler

namespace GridServicesModels

/-- `grid_services_api/api/models.py`, `SetpointRequest.validate_device`:
the allowed device list. -/
def allowedDevices : List String :=
  ["space_heating", "electric_storage", "on_off_ev_charger",
   "electric_vehicle_v1g", "electric_vehicle_v2g", "water_heater"]

/-- `validate_device`: `device in allowed_devices`, else `ValueError`. -/
def validateDevice (device : String) : Bool :=
  allowedDevices.contains device

/-- `validate_setpoint`: the per-device range checks, each `if` raising
`ValueError` when its range test fails; value is the already-parsed `int`. -/
def validateSetpoint (device : String) (value : Int) : Bool :=
  if device = "space_heating" ∧ ¬(10 ≤ value ∧ value ≤ 30) then false
  else if device = "electric_storage" ∧ ¬(-100 ≤ value ∧ value ≤ 100) then false
  else if device = "on_off_ev_charger" ∧ ¬(0 ≤ value ∧ value ≤ 1) then false
  else if device = "electric_vehicle_v1g" ∧ ¬(-100 ≤ value ∧ value ≤ 100) then false
  else if device = "electric_vehicle_v2g" ∧ ¬(-100 ≤ value ∧ value ≤ 100) then false
  else if device = "water_heater" ∧ ¬(30 ≤ value ∧ value ≤ 70) then false
  else true

/-- `validate_duration`: `5 <= value <= 240`, else `ValueError`. -/
def validateDuration (value : Int) : Bool :=
  if ¬(5 ≤ value ∧ value ≤ 240) then false else true

/-- The `setpoint: int` field type: pydantic coerces a numeric input to `int`
only when it has no fractional part; a number like `0.5` fails the field's
integer parsing before any range validator runs. -/
def parseIntField (raw : ℚ) : Option Int :=
  if raw.den = 1 then some raw.num else none

/-- Acceptance of a raw numeric setpoint for a device: the integer field
parsing followed by `validate_setpoint`. -/
def setpointFieldAccepted (device : String) (raw : ℚ) : Bool :=
  match parseIntField raw with
  | none => false
  | some value => validateSetpoint device value

/-- C6 counterexample: a setpoint of 50 for `water_heater` lies inside the
checked range `30 ≤ value ≤ 70`, so `validate_setpoint` accepts it — the claim
that 50 is rejected for `water_heater` is false on the code. -/
theorem setpoint_water_heater_50_accepted_counterexample :
    setpointFieldAccepted "water_heater" 50 = true
    ∧ validateSetpoint "water_heater" 50 = true := by
  decide

/-- C6 (amended): `SetpointRequest` validation accepts only devices in the
allowed set and enforces the per-device setpoint ranges and the 5–240 minute
duration bound; in particular a setpoint of 35 for `space_heating` is rejected
(valid range 10–30), a setpoint of 0.5 for `on_off_ev_charger` is rejected at
integer field parsing (an integer setpoint is accepted exactly when it is 0 or
1), and a setpoint of 50 for `water_heater` is accepted since it lies within
the valid range 30–70 (out-of-range values such as 80 are rejected). -/
theorem setpointRequest_validation_rules :
    (∀ device : String, validateDevice device = true ↔ device ∈ allowedDevices)
    ∧ (∀ value : Int, validateDuration value = true ↔ 5 ≤ value ∧ value ≤ 240)
    ∧ (∀ value : Int, validateSetpoint "space_heating" value = true
        ↔ 10 ≤ value ∧ value ≤ 30)
    ∧ (∀ value : Int, validateSetpoint "on_off_ev_charger" value = true
        ↔ value = 0 ∨ value = 1)
    ∧ (∀ value : Int, validateSetpoint "water_heater" value = true
        ↔ 30 ≤ value ∧ value ≤ 70)
    ∧ setpointFieldAccepted "space_heating" 35 = false
    ∧ setpointFieldAccepted "on_off_ev_charger" (mkRat 1 2) = false
    ∧ setpointFieldAccepted "water_heater" 50 = true
    ∧ setpointFieldAccepted "water_heater" 80 = false := by
  refine ⟨?_, ?_, ?_, ?_, ?_, by decide, by decide, by decide, by decide⟩
  · intro device
    constructor
    · intro h
      exact List.mem_of_elem_eq_true h
    · intro h
      exact List.elem_eq_true_of_mem h
  · intro value
    by_cases hc : 5 ≤ value ∧ value ≤ 240
    · simp [validateDuration, hc]
    · simp [validateDuration, hc]
  · intro value
    by_cases hc : 10 ≤ value ∧ value ≤ 30
    · simp [validateSetpoint, hc]
    · simp [validateSetpoint, hc]
  · intro value
    by_cases hc : 0 ≤ value ∧ value ≤ 1
    · simp only [validateSetpoint]
      simp [hc]
      omega
    · simp [validateSetpoint, hc]
      omega
  · intro value
    by_cases hc : 30 ≤ value ∧ value ≤ 70
    · simp [validateSetpoint, hc]
    · simp [validateSetpoint, hc]

end GridServicesModels

namespace DetectBlackout

/-- `np.around(x, 2)` rounds to 2 decimal places with ties to even
(IEEE-754 banker's rounding), modelled exactly on the rational value. -/
def roundHalfEven (x : ℚ) : Int :=
  if x - ⌊x⌋ < mkRat 1 2 then ⌊x⌋
  else if mkRat 1 2 < x - ⌊x⌋ then ⌊x⌋ + 1
  else if ⌊x⌋ % 2 = 0 then ⌊x⌋ else ⌊x⌋ + 1

/-- Rounding to two decimals: `np.around(gaps.iloc[-1], 2)`. -/
def round2 (x : ℚ) : ℚ :=
  mkRat (roundHalfEven (x * 100)) 100

/-- `df.index.to_series().diff()` on the telemetry timestamps (in minutes,
after `.dt.total_seconds() / 60`), paired with the timestamp at the end of each
gap (the series index, from which `gaps.index[-1]` is taken). -/
def timeDiffs : List ℚ → List (ℚ × ℚ)
  | [] => []
  | [_] => []
  | a :: b :: rest => (b - a, b) :: timeDiffs (b :: rest)

/-- `data_engine/grap/detect_blackout.py`, `_detect_last_data_interruption`:
on an empty read the source assigns `blackout_duration = None` but does *not*
return; it falls through to `df.index.to_series().diff().dt.total_seconds()`,
and on an empty `pd.DataFrame()` the index is an integer `RangeIndex`, whose
differenced series is not datetime-like — the `.dt` accessor raises
`AttributeError`, modelled as `Except.error`.  On a non-empty read, the gaps
strictly larger than `min_gap_minutes` are kept; if none, `(None, None)`;
otherwise the *last* such gap is returned as
`(np.around(gap, 2), gap end timestamp)`. -/
def detectLastDataInterruption (times : List ℚ) (minGapMinutes : ℚ) :
    Except String (Option (ℚ × ℚ)) :=
  match times with
  | [] => Except.error "AttributeError: Can only use .dt accessor with datetimelike values"
  | _ :: _ =>
      let gaps := (timeDiffs times).filter (fun g => decide (minGapMinutes < g.1))
      match gaps.getLast? with
      | none => Except.ok none
      | some g => Except.ok (some (round2 g.1, g.2))

/-- The externally visible effect of one `detect_blackout_info_locally` cycle:
the `blackout_info` entry persisted to Redis (duration, stop, TTL seconds), and
whether the cold-load-pickup RPC was issued. -/
structure BlackoutOutcome where
  blackoutWrite : Option (ℚ × ℚ × ℚ)
  rpcIssued : Bool
deriving DecidableEq, Repr

/-- `detect_blackout_info_locally`: when a `grap_info` cache entry is active the
cycle does nothing; otherwise it runs `_detect_last_data_interruption` with
`min_gap_minutes=1` and, when `blackout_duration is not None and blackout_duration > 30`,
persists `blackout_info` with TTL `blackout_duration * 60` and issues the
cold-load-pickup RPC exactly when no `grap_cold_pickup_call` entry exists. -/
def detectBlackoutInfoLocally (grapInfo : Option String) (times : List ℚ)
    (callState : Option String) : Except String BlackoutOutcome :=
  match grapInfo with
  | some _ => Except.ok ⟨none, false⟩
  | none =>
      match detectLastDataInterruption times 1 with
      | Except.error msg => Except.error msg
      | Except.ok none => Except.ok ⟨none, false⟩
      | Except.ok (some (duration, stop)) =>
          if 30 < duration then
            Except.ok ⟨some (duration, stop, duration * 60), callState.isNone⟩
          else
            Except.ok ⟨none, false⟩

theorem roundHalfEven_intCast (n : Int) : roundHalfEven ((n : ℚ)) = n := by
  unfold roundHalfEven
  rw [Int.floor_intCast, sub_self]
  rw [if_pos (by rw [Rat.mkRat_eq_divInt, Rat.divInt_eq_div]; norm_num)]

theorem round2_intCast (n : Int) : round2 ((n : ℚ)) = ((n : ℚ)) := by
  unfold round2
  rw [show ((n : ℚ) * 100) = (((n * 100 : Int)) : ℚ) by push_cast; ring]
  rw [roundHalfEven_intCast]
  rw [Rat.mkRat_eq_divInt, Rat.divInt_eq_div]
  push_cast
  field_simp

/-- C7: the claim says an empty net-power telemetry read completes the cycle
without raising and records no blackout; on the code it instead raises — the
`if df.empty` branch assigns the no-blackout values but is missing a `return`,
so the empty frame reaches the `.dt` accessor, which raises `AttributeError`
and aborts the cycle.  For non-empty reads the rest of the claim holds: with
samples at minutes 0 and 35 (most recent >1-minute gap of 35 minutes, exceeding
30) the blackout is persisted with TTL `35 × 60 = 2100` and the RPC is issued
when no `grap_cold_pickup_call` entry exists, while with samples at minutes 0
and 25 the 25-minute gap does not exceed 30 and nothing is recorded. -/
theorem detectBlackout_empty_read_raises :
    detectBlackoutInfoLocally none [] none
      = Except.error "AttributeError: Can only use .dt accessor with datetimelike values"
    ∧ detectBlackoutInfoLocally none [0, 35] none
      = Except.ok ⟨some (35, 35, 2100), true⟩
    ∧ detectBlackoutInfoLocally none [0, 25] none = Except.ok ⟨none, false⟩ := by
  refine ⟨rfl, ?_, ?_⟩
  · have h35 : round2 (35 : ℚ) = 35 := by
      have := round2_intCast 35
      norm_num at this
      exact this
    simp only [detectBlackoutInfoLocally, detectLastDataInterruption, timeDiffs]
    norm_num [List.filter, List.getLast?, h35]
  · have h25 : round2 (25 : ℚ) = 25 := by
      have := round2_intCast 25
      norm_num at this
      exact this
    simp only [detectBlackoutInfoLocally, detectLastDataInterruption, timeDiffs]
    norm_num [List.filter, List.getLast?, h25]

end DetectBlackout

namespace SaveSchedule

/-- One entry of the cached `user_devices` inventory, keeping the two fields
`save_schedule` reads: `entity_id` and `type`. -/
structure DeviceEntry where
  entityId : String
  deviceType : String
deriving DecidableEq, Repr

/-- `common/device/helper.py`, `DeviceHelper.device_exists`: any inventory
entry with the given `entity_id`. -/
def deviceExists (devices : List DeviceEntry) (deviceId : String) : Bool :=
  devices.any (fun d => d.entityId == deviceId)

/-- The device types with a configured field/bucket in
`_write_schedule_for_device_type`; any other type logs
`"Unsupported device type"` and returns without writing. -/
def supportedDeviceTypes : List String :=
  ["space_heating", "on_off_ev_charger", "electric_vehicle_v1g",
   "electric_vehicle_v2g", "electric_storage", "water_heater", "thermal_storage"]

/-- An InfluxDB write performed by `_write_schedule_for_device_type`: the
dispatch points of one device, tagged with `priority`, `_type="control"` and
`from_direct_control`. -/
structure ControlWrite where
  deviceId : String
  deviceType : String
  priority : Int
  fromDirectControl : Bool
  points : List (Int × ℚ)
deriving DecidableEq, Repr

/-- The body of `save_schedule`'s per-device `try` block: skip (with a logged
error) when the device is not installed, resolve its type, skip (with a logged
warning) when the type is unsupported, and otherwise perform the time-series
write — which may itself raise; `writeFails` is the oracle for that. -/
def saveScheduleDevice (devices : List DeviceEntry) (priority : Int)
    (fromDirectControl : Bool) (writeFails : String → Bool)
    (deviceId : String) (dispatch : List (Int × ℚ)) :
    Except String (Option ControlWrite) :=
  if ¬ deviceExists devices deviceId then
    Except.ok none
  else
    match (devices.filter (fun d => d.entityId == deviceId)).head? with
    | none => Except.error "IndexError"
    | some d =>
        if ¬ supportedDeviceTypes.contains d.deviceType then
          Except.ok none
        else if writeFails deviceId then
          Except.error "InfluxDB write failed"
        else
          Except.ok (some ⟨deviceId, d.deviceType, priority, fromDirectControl, dispatch⟩)

/-- `core_api/schedule/device_scheduler.py`, `DeviceScheduler.save_schedule`:
iterate over the dispatches; each device is processed inside
`try: ... except Exception as e: logger.error(...)` — every per-device failure
is caught, logged and swallowed, and the loop continues.  The function returns
nothing; its observable effect is the list of writes that succeeded. -/
def saveSchedule (devices : List DeviceEntry) (priority : Int)
    (fromDirectControl : Bool) (writeFails : String → Bool) :
    List (String × List (Int × ℚ)) → List ControlWrite
  | [] => []
  | (deviceId, dispatch) :: rest =>
      match saveScheduleDevice devices priority fromDirectControl writeFails deviceId dispatch with
      | Except.error _ => saveSchedule devices priority fromDirectControl writeFails rest
      | Except.ok none => saveSchedule devices priority fromDirectControl writeFails rest
      | Except.ok (some w) => w :: saveSchedule devices priority fromDirectControl writeFails rest

/-- An HTTP response of the bulk-schedule endpoint. -/
inductive ApiResponse
  | ok (message : String)
  | clientError (code : Nat) (detail : String)
deriving DecidableEq, Repr

/-- `core_api/api/devices.py`, `set_device_dispatches_schedule`: reject a
priority outside `[0, 100]` with HTTP 400, otherwise call
`DeviceScheduler.save_schedule` and unconditionally answer HTTP 200
`"Schedule saved successfully"`. -/
def setDeviceDispatchesSchedule (devices : List DeviceEntry) (priority : Int)
    (dispatches : List (String × List (Int × ℚ))) (writeFails : String → Bool) :
    ApiResponse × List ControlWrite :=
  if ¬ (0 ≤ priority ∧ priority ≤ 100) then
    (ApiResponse.clientError 400 "Invalid priority value", [])
  else
    (ApiResponse.ok "Schedule saved successfully",
      saveSchedule devices priority false writeFails dispatches)

/-- C8 counterexample: a bulk-schedule request for a device that is not
installed produces no write at all, yet the endpoint answers HTTP 200
`"Schedule saved successfully"` — the failure is logged and swallowed inside
`save_schedule`'s per-device `except` block (and the unknown device skipped
with `continue`), never propagated to the caller, contradicting the claim. -/
theorem saveSchedule_unknown_device_swallowed_counterexample :
    setDeviceDispatchesSchedule [⟨"d1", "space_heating"⟩] 50
        [("ghost", [(0, 21)])] (fun _ => false)
      = (ApiResponse.ok "Schedule saved successfully", [])
    ∧ deviceExists [⟨"d1", "space_heating"⟩] "ghost" = false
    ∧ setDeviceDispatchesSchedule [⟨"d1", "space_heating"⟩] 50
        [("d1", [(0, 21)])] (fun _ => true)
      = (ApiResponse.ok "Schedule saved successfully", []) := by
  refine ⟨rfl, rfl, rfl⟩

/-- C8 (amended): when persisting a user-requested dispatch schedule fails for
a device (unknown device, or the time-series write raises), `save_schedule`
logs the error and continues with the remaining devices, and the bulk-schedule
endpoint answers HTTP 200 `"Schedule saved successfully"` regardless; only an
out-of-range priority is propagated to the caller (HTTP 400).  Writes are
performed exactly for installed devices of a supported type whose time-series
write does not fail. -/
theorem setDeviceDispatchesSchedule_swallows_failures (devices : List DeviceEntry)
    (priority : Int) (dispatches : List (String × List (Int × ℚ)))
    (writeFails : String → Bool) :
    ((setDeviceDispatchesSchedule devices priority dispatches writeFails).1
        = ApiResponse.ok "Schedule saved successfully"
      ↔ 0 ≤ priority ∧ priority ≤ 100)
    ∧ (¬ (0 ≤ priority ∧ priority ≤ 100) →
        (setDeviceDispatchesSchedule devices priority dispatches writeFails).1
          = ApiResponse.clientError 400 "Invalid priority value")
    ∧ ∀ w ∈ (setDeviceDispatchesSchedule devices priority dispatches writeFails).2,
        deviceExists devices w.deviceId = true
        ∧ supportedDeviceTypes.contains w.deviceType = true
        ∧ writeFails w.deviceId = false := by
  refine ⟨?_, ?_, ?_⟩
  · by_cases hp : 0 ≤ priority ∧ priority ≤ 100
    · simp [setDeviceDispatchesSchedule, hp]
    · simp [setDeviceDispatchesSchedule, hp]
  · intro hp
    simp [setDeviceDispatchesSchedule, hp]
  · by_cases hp : 0 ≤ priority ∧ priority ≤ 100
    · simp only [setDeviceDispatchesSchedule, if_neg (not_not_intro hp)]
      induction dispatches with
      | nil => simp [saveSchedule]
      | cons entry rest ih =>
        obtain ⟨deviceId, dispatch⟩ := entry
        simp only [saveSchedule]
        cases hdev : saveScheduleDevice devices priority false writeFails deviceId dispatch with
        | error msg => exact ih
        | ok res =>
          cases res with
          | none => exact ih
          | some w =>
            intro w2 hw2
            rcases List.mem_cons.mp hw2 with rfl | hw2
            · simp only [saveScheduleDevice] at hdev
              by_cases hex : deviceExists devices deviceId = true
              · rw [if_neg (not_not_intro hex)] at hdev
                cases hhead : (devices.filter (fun d => d.entityId == deviceId)).head? with
                | none =>
                  simp only [hhead] at hdev
                  exact absurd hdev (by simp)
                | some d =>
                  simp only [hhead] at hdev
                  by_cases hsup : supportedDeviceTypes.contains d.deviceType = true
                  · rw [if_neg (not_not_intro hsup)] at hdev
                    by_cases hwf : writeFails deviceId = true
                    · rw [if_pos hwf] at hdev
                      exact absurd hdev (by simp)
                    · rw [if_neg hwf] at hdev
                      simp only [Except.ok.injEq, Option.some.injEq] at hdev
                      subst hdev
                      exact ⟨hex, hsup, by simpa using hwf⟩
                  · rw [if_pos (by simpa using hsup)] at hdev
                    exact absurd hdev (by simp)
              · rw [if_pos (by simpa using hex)] at hdev
                exact absurd hdev (by simp)
            · exact ih w2 hw2
    · intro w hw
      simp only [setDeviceDispatchesSchedule, if_pos hp] at hw
      exact absurd hw (by simp)

/-- Witness for C8 at concrete inputs: with one installed `space_heating`
device, a valid priority 50 request for an unknown device plus a device whose
write raises still answers 200 with the failures swallowed, and the conclusions
of the theorem hold there. -/
theorem setDeviceDispatchesSchedule_swallows_failures_witness :
    ((setDeviceDispatchesSchedule [⟨"d1", "space_heating"⟩] 50
          [("ghost", [(0, 21)]), ("d1", [(0, 21)])] (fun d => d == "d1")).1
        = ApiResponse.ok "Schedule saved successfully"
      ↔ (0 : Int) ≤ 50 ∧ (50 : Int) ≤ 100)
    ∧ (¬ ((0 : Int) ≤ 50 ∧ (50 : Int) ≤ 100) →
        (setDeviceDispatchesSchedule [⟨"d1", "space_heating"⟩] 50
            [("ghost", [(0, 21)]), ("d1", [(0, 21)])] (fun d => d == "d1")).1
          = ApiResponse.clientError 400 "Invalid priority value")
    ∧ ∀ w ∈ (setDeviceDispatchesSchedule [⟨"d1", "space_heating"⟩] 50
          [("ghost", [(0, 21)]), ("d1", [(0, 21)])] (fun d => d == "d1")).2,
        deviceExists [⟨"d1", "space_heating"⟩] w.deviceId = true
        ∧ supportedDeviceTypes.contains w.deviceType = true
        ∧ (fun d => d == "d1") w.deviceId = false :=
  setDeviceDispatchesSchedule_swallows_failures [⟨"d1", "space_heating"⟩] 50
    [("ghost", [(0, 21)]), ("d1", [(0, 21)])] (fun d => d == "d1")

end SaveSchedule
